import Mathlib

/-!
Shallow embedding of `src/server/src/services/openai.ts` (class `OpenAIService`):
the meal-analysis response normalization and fallback pipeline.

Modelling conventions:
* JavaScript values are modelled by the inductive `JsValue`; JS numbers are
  `JsNum` (either NaN or an exact rational — IEEE doubles are modelled as
  exact rationals, which agrees with the source on all values the claims
  touch).
* Property access `o.k` is `getField`, which throws (returns `.error`) exactly
  when the receiver is `null` or `undefined`, mirroring the JS TypeError.
* `Number(x)` is `jsToNumber`; its string branch models the decimal-literal
  fragment of JS ToNumber (hex, exponent and Infinity literal forms are not
  modelled and coerce to NaN here; no claim touches them).
* Truthiness (`x || y`, `x ? a : b`, `if (x)`) is `jsTruthy`.
* String helpers (`trim`, `toLowerCase`, `includes`, `split`, `startsWith`)
  are re-implemented structurally over `List Char` so that they compute in
  the kernel; they mirror the ASCII behaviour of the JS originals (JS
  `toLowerCase`/`trim` are Unicode-aware, the difference is irrelevant to
  every string the claims use).
* The OpenAI client call and the JSON-extraction utilities
  (`extractCleanJSON`, `parsePartialJSON`, which live outside this
  repository's sources) are oracles: the provider's behaviour is a function
  from the system prompt to a `ProviderResult`, and the parse step is a
  function from the returned content to `Except JsError JsValue`.  The
  theorems quantify over both.
* `try { ... } catch (e) { ... }` is modelled by running the body in
  `Except JsError` and dispatching on the error in a separate handler,
  exactly following the source's catch blocks.
-/

/-- A JavaScript number: NaN or an exact rational. -/
inductive JsNum where
  | nan
  | val (q : ℚ)

/-- A JavaScript value as it can appear in a parsed JSON response
(plus `undefined`, which arises from missing properties). -/
inductive JsValue where
  | undefined
  | null
  | bool (b : Bool)
  | num (n : JsNum)
  | str (s : String)
  | arr (elems : List JsValue)
  | obj (fields : List (String × JsValue))

/-- Read a field of a JS object literal: first binding wins, missing keys are
`undefined`. -/
def objGet : List (String × JsValue) → String → JsValue
  | [], _ => .undefined
  | (k', v') :: rest, k => if k' = k then v' else objGet rest k

/-- Assign a field of a JS object: overwrite the first binding in place, or
append a new one, as JS property assignment does. -/
def objSet : List (String × JsValue) → String → JsValue → List (String × JsValue)
  | [], k, v => [(k, v)]
  | (k', v') :: rest, k, v =>
      if k' = k then (k, v) :: rest else (k', v') :: objSet rest k v

/-- Property read on an arbitrary non-nullish JS value: objects look up the
field, primitives and arrays yield `undefined` for the property names used by
this service. -/
def jsAccess : JsValue → String → JsValue
  | .obj fields, k => objGet fields k
  | _, _ => .undefined

/-- Property read `v.k` including the TypeError on `null`/`undefined`
receivers. -/
def getField (v : JsValue) (k : String) : Except String JsValue :=
  match v with
  | .null => .error ("TypeError: Cannot read properties of null (reading " ++ k ++ ")")
  | .undefined => .error ("TypeError: Cannot read properties of undefined (reading " ++ k ++ ")")
  | w => .ok (jsAccess w k)

/-- JS truthiness: `undefined`, `null`, `false`, `0`, `NaN` and `""` are
falsy, everything else is truthy. -/
def jsTruthy : JsValue → Bool
  | .undefined => false
  | .null => false
  | .bool b => b
  | .num .nan => false
  | .num (.val q) => q != 0
  | .str s => s != ""
  | .arr _ => true
  | .obj _ => true

/-- Truthiness of an optional-string parameter (`undefined` or a string). -/
def optTruthy : Option String → Bool
  | none => false
  | some s => s != ""

/-- Structural re-implementation of whitespace trimming (JS `trim`). -/
def trimChars (l : List Char) : List Char :=
  ((l.dropWhile Char.isWhitespace).reverse.dropWhile Char.isWhitespace).reverse

/-- JS `String.prototype.trim`. -/
def jsTrim (s : String) : String := String.mk (trimChars s.data)

/-- JS `String.prototype.toLowerCase` (ASCII fragment). -/
def jsToLower (s : String) : String := String.mk (s.data.map Char.toLower)

/-- Structural split on a single character, mirroring JS `split(",")`. -/
def splitOnChar (c : Char) : List Char → List (List Char)
  | [] => [[]]
  | x :: r =>
      let rest := splitOnChar c r
      if x = c then [] :: rest
      else
        match rest with
        | [] => [[x]]
        | h :: t => (x :: h) :: t

/-- Does `sub` occur inside `l`? (Helper for JS `includes`.) -/
def subListAt (sub : List Char) : List Char → Bool
  | [] => sub.isEmpty
  | c :: rest => sub.isPrefixOf (c :: rest) || subListAt sub rest

/-- JS `String.prototype.includes`. -/
def strIncludes (s sub : String) : Bool := subListAt sub.data s.data

/-- JS `String.prototype.startsWith`. -/
def strStartsWith (s pre : String) : Bool := pre.data.isPrefixOf s.data

/-- Numeric value of a digit string. -/
def natOfDigits (l : List Char) : ℕ :=
  l.foldl (fun n c => 10 * n + (c.toNat - 48)) 0

/-- Value of `intPart.fracPart` when both parts are digit strings and at
least one is nonempty. -/
def decPartsVal (intPart fracPart : List Char) : Option ℚ :=
  if (!(intPart.isEmpty && fracPart.isEmpty)) && intPart.all Char.isDigit
      && fracPart.all Char.isDigit then
    some ((natOfDigits intPart : ℚ) + (natOfDigits fracPart : ℚ) / (10 : ℚ) ^ fracPart.length)
  else none

/-- Parse an unsigned decimal literal (`123`, `1.5`, `.5`, `5.`). -/
def parseUnsigned (l : List Char) : Option ℚ :=
  match splitOnChar '.' l with
  | [a] => decPartsVal a []
  | [a, b] => decPartsVal a b
  | _ => none

/-- JS `Number(string)`: trimmed-empty is `0`, a signed decimal literal is its
value, anything else is NaN (decimal-literal fragment of ToNumber). -/
def strToNum (s : String) : JsNum :=
  let t := trimChars s.data
  if t.isEmpty then .val 0
  else
    match t with
    | '-' :: r => match parseUnsigned r with | some q => .val (-q) | none => .nan
    | '+' :: r => match parseUnsigned r with | some q => .val q | none => .nan
    | _ => match parseUnsigned t with | some q => .val q | none => .nan

/-- Numeric coercion of a single array element (via its JS string form):
`[x]` coerces through `String(x)`, so `null`/`undefined`/nested empties give
`0`, numbers and numeric strings give their value, everything else NaN. -/
def elemToNum : JsValue → JsNum
  | .null => .val 0
  | .undefined => .val 0
  | .num n => n
  | .str s => strToNum s
  | .arr [] => .val 0
  | .arr [y] => elemToNum y
  | _ => .nan

/-- JS `Number(x)` on arbitrary values. -/
def jsToNumber : JsValue → JsNum
  | .undefined => .nan
  | .null => .val 0
  | .bool b => .val (if b then 1 else 0)
  | .num n => n
  | .str s => strToNum s
  | .arr [] => .val 0
  | .arr [x] => elemToNum x
  | .arr _ => .nan
  | .obj _ => .nan

/-- JS `a || b`. -/
def jsOr (a b : JsValue) : JsValue := if jsTruthy a then a else b

/-- The pattern `Number(x) || d` used throughout the normalizer. -/
def numOr (x : JsValue) (d : ℚ) : JsValue :=
  jsOr (.num (jsToNumber x)) (.num (.val d))

/-- JS `Math.round` (half-up, NaN-propagating). -/
def jsRound : JsNum → JsNum
  | .nan => .nan
  | .val q => .val ((⌊q + 1/2⌋ : ℤ) : ℚ)

/-- JS multiplication `x * c` with numeric coercion of the left operand. -/
def jsMulC (x : JsValue) (c : ℚ) : JsNum :=
  match jsToNumber x with
  | .nan => .nan
  | .val q => .val (q * c)

/-- JS subtraction `x - c` with numeric coercion of the left operand. -/
def jsSubC (x : JsValue) (c : ℚ) : JsNum :=
  match jsToNumber x with
  | .nan => .nan
  | .val q => .val (q - c)

/-- JS `Math.max(c, n)` (NaN-propagating). -/
def jsMax (c : ℚ) : JsNum → JsNum
  | .nan => .nan
  | .val q => .val (max c q)

/-- Base64 alphabet letter. -/
def isB64Char (c : Char) : Bool := c.isAlpha || c.isDigit || c = '+' || c = '/'

/-- After the first `=`: at most one further `=` and then the end. -/
def b64Tail : List Char → Bool
  | [] => true
  | ['='] => true
  | _ => false

/-- A run of base64 alphabet characters followed by at most two `=`. -/
def b64Run : List Char → Bool
  | [] => true
  | c :: r => if isB64Char c then b64Run r else c = '=' && b64Tail r

/-- The validation regex `^[A-Za-z0-9+/]*=\x7b0,2\x7d$` from
`analyzeMealImage`. -/
def base64Test (s : String) : Bool := b64Run s.data

/-- Indentation for `JSON.stringify(v, null, 2)`. -/
def spaces (n : Nat) : String := String.mk (List.replicate n ' ')

/-- Join strings with a separator. -/
def joinWith (sep : String) : List String → String
  | [] => ""
  | [x] => x
  | x :: r => x ++ sep ++ joinWith sep r

/-- Escape a character for a JSON string literal. -/
def escapeJsonChar (c : Char) : String :=
  if c = '"' then "\\\""
  else if c = '\\' then "\\\\"
  else if c = '\n' then "\\n"
  else if c = '\r' then "\\r"
  else if c = '\t' then "\\t"
  else String.mk [c]

/-- A JSON string literal. -/
def jsonQuote (s : String) : String :=
  "\"" ++ String.join (s.data.map escapeJsonChar) ++ "\""

/-- JSON rendering of a JS number.  JS prints the shortest decimal form; here
integers are printed exactly and other rationals as `num/den` (this string
only ever feeds prompt text, which no claim inspects). -/
def numToJsonString (n : JsNum) : String :=
  match n with
  | .nan => "null"
  | .val q => if q.den = 1 then toString q.num else toString q.num ++ "/" ++ toString q.den

mutual

/-- `JSON.stringify` with an indentation width (`0` gives the compact form,
`2` models `JSON.stringify(v, null, 2)`); `ind` is the current indentation.
`none` is returned exactly for `undefined` (omitted in objects, `null` in
arrays, `undefined` at top level). -/
def jsonStr (width ind : Nat) : JsValue → Option String
  | .undefined => none
  | .null => some "null"
  | .bool b => some (if b then "true" else "false")
  | .num n => some (numToJsonString n)
  | .str s => some (jsonQuote s)
  | .arr xs =>
      let items := jsonStrElems width (ind + width) xs
      some (if items.isEmpty then "[]"
        else if width = 0 then "[" ++ joinWith "," items ++ "]"
        else "[\n" ++ joinWith ",\n" (items.map (fun s => spaces (ind + width) ++ s))
          ++ "\n" ++ spaces ind ++ "]")
  | .obj fs =>
      let items := jsonStrFields width (ind + width) fs
      some (if items.isEmpty then "\x7b\x7d"
        else if width = 0 then "\x7b" ++ joinWith "," items ++ "\x7d"
        else "\x7b\n" ++ joinWith ",\n" (items.map (fun s => spaces (ind + width) ++ s))
          ++ "\n" ++ spaces ind ++ "\x7d")

/-- Array elements during stringification (`undefined` renders as `null`). -/
def jsonStrElems (width ind : Nat) : List JsValue → List String
  | [] => []
  | x :: r => ((jsonStr width ind x).getD "null") :: jsonStrElems width ind r

/-- Object fields during stringification (`undefined`-valued fields are
omitted). -/
def jsonStrFields (width ind : Nat) : List (String × JsValue) → List String
  | [] => []
  | (k, v) :: r =>
      match jsonStr width ind v with
      | none => jsonStrFields width ind r
      | some s =>
          (jsonQuote k ++ (if width = 0 then ":" else ": ") ++ s) :: jsonStrFields width ind r

end

/-- `JSON.stringify(v)` (compact). -/
def jsonStringify (v : JsValue) : Option String := jsonStr 0 0 v

/-- `JSON.stringify(v, null, 2)` (pretty, two-space indent). -/
def jsonStringify2 (v : JsValue) : Option String := jsonStr 2 0 v

/-- The canonical nutrition record: the exact field set of the object literal
returned by `normalizeAnalysisResponse` (also produced by
`getFallbackAnalysis`).  Field values stay in the JS value domain, since the
source copies arbitrary truthy inputs through `||` defaults. -/
structure NutritionRecord where
  name : JsValue
  description : JsValue
  calories : JsValue
  protein : JsValue
  carbs : JsValue
  fat : JsValue
  fiber : JsValue
  sugar : JsValue
  sodium : JsValue
  saturated_fats_g : JsValue
  polyunsaturated_fats_g : JsValue
  monounsaturated_fats_g : JsValue
  omega_3_g : JsValue
  omega_6_g : JsValue
  soluble_fiber_g : JsValue
  insoluble_fiber_g : JsValue
  cholesterol_mg : JsValue
  alcohol_g : JsValue
  caffeine_mg : JsValue
  liquids_ml : JsValue
  serving_size_g : JsValue
  glycemic_index : JsValue
  insulin_index : JsValue
  food_category : JsValue
  processing_level : JsValue
  cooking_method : JsValue
  health_risk_notes : JsValue
  confidence : JsValue
  ingredients : JsValue
  healthNotes : JsValue
  recommendations : JsValue
  meal_name : JsValue
  protein_g : JsValue
  carbs_g : JsValue
  fats_g : JsValue
  fiber_g : JsValue
  sugar_g : JsValue
  sodium_mg : JsValue

namespace OpenAIService

/-- The field coercions of `normalizeAnalysisResponse`, applied to the
property-read function of the (non-nullish) receiver.  Mirrors the object
literal at the end of the source function, field by field. -/
def coerceAnalysis (g : String → JsValue) : NutritionRecord where
  name := jsOr (g "name") (.str "Unknown Meal")
  description := jsOr (g "description") (.str "")
  calories := numOr (g "calories") 0
  protein := numOr (g "protein") 0
  carbs := numOr (g "carbs") 0
  fat := numOr (g "fat") 0
  fiber := numOr (g "fiber") 0
  sugar := numOr (g "sugar") 0
  sodium := numOr (g "sodium") 0
  saturated_fats_g := numOr (g "saturated_fats_g") 0
  polyunsaturated_fats_g := numOr (g "polyunsaturated_fats_g") 0
  monounsaturated_fats_g := numOr (g "monounsaturated_fats_g") 0
  omega_3_g := numOr (g "omega_3_g") 0
  omega_6_g := numOr (g "omega_6_g") 0
  soluble_fiber_g := numOr (g "soluble_fiber_g") 0
  insoluble_fiber_g := numOr (g "insoluble_fiber_g") 0
  cholesterol_mg := numOr (g "cholesterol_mg") 0
  alcohol_g := numOr (g "alcohol_g") 0
  caffeine_mg := numOr (g "caffeine_mg") 0
  liquids_ml := numOr (g "liquids_ml") 0
  serving_size_g := numOr (g "serving_size_g") 100
  glycemic_index := if jsTruthy (g "glycemic_index") then .num (jsToNumber (g "glycemic_index")) else .null
  insulin_index := if jsTruthy (g "insulin_index") then .num (jsToNumber (g "insulin_index")) else .null
  food_category := jsOr (g "food_category") (.str "Mixed")
  processing_level := jsOr (g "processing_level") (.str "Moderate")
  cooking_method := jsOr (g "cooking_method") (.str "Mixed")
  health_risk_notes := jsOr (g "health_risk_notes") (.str "")
  confidence := numOr (g "confidence") 75
  ingredients := match g "ingredients" with
    | .arr xs => .arr xs
    | _ => .arr []
  healthNotes := jsOr (g "healthNotes") (jsOr (g "recommendations") (.str ""))
  recommendations := jsOr (g "recommendations") (jsOr (g "healthNotes") (.str ""))
  meal_name := jsOr (g "name") (.str "Unknown Meal")
  protein_g := numOr (g "protein") 0
  carbs_g := numOr (g "carbs") 0
  fats_g := numOr (g "fat") 0
  fiber_g := numOr (g "fiber") 0
  sugar_g := numOr (g "sugar") 0
  sodium_mg := numOr (g "sodium") 0

/-- `normalizeAnalysisResponse(analysis)`.  In JS the first property read
(`analysis.name`) raises a TypeError when `analysis` is `null` or
`undefined`; every read on any other receiver succeeds, so the rest of the
function is the total field coercion `coerceAnalysis`. -/
def normalizeAnalysisResponse (analysis : JsValue) : Except String NutritionRecord :=
  match analysis with
  | .null => .error ("TypeError: Cannot read properties of null (reading name)")
  | .undefined => .error ("TypeError: Cannot read properties of undefined (reading name)")
  | v => .ok (coerceAnalysis (jsAccess v))

/-- `getFallbackAnalysis(language)`: the deterministic synthetic record. -/
def getFallbackAnalysis (language : String) : NutritionRecord :=
  let isHebrew := language == "hebrew"
  { name := .str (if isHebrew then "ארוחה מנותחת" else "Analyzed Meal")
    description := .str (if isHebrew then "ניתוח בסיסי של הארוחה" else "Basic meal analysis")
    calories := .num (.val 400)
    protein := .num (.val 25)
    carbs := .num (.val 45)
    fat := .num (.val 15)
    fiber := .num (.val 8)
    sugar := .num (.val 10)
    sodium := .num (.val 600)
    saturated_fats_g := .num (.val 5)
    polyunsaturated_fats_g := .num (.val 3)
    monounsaturated_fats_g := .num (.val 7)
    omega_3_g := .num (.val 1)
    omega_6_g := .num (.val 2)
    soluble_fiber_g := .num (.val 4)
    insoluble_fiber_g := .num (.val 4)
    cholesterol_mg := .num (.val 50)
    alcohol_g := .num (.val 0)
    caffeine_mg := .num (.val 0)
    liquids_ml := .num (.val 200)
    serving_size_g := .num (.val 250)
    glycemic_index := .num (.val 55)
    insulin_index := .num (.val 45)
    food_category := .str (if isHebrew then "מעורב" else "Mixed")
    processing_level := .str (if isHebrew then "בינוני" else "Moderate")
    cooking_method := .str (if isHebrew then "מעורב" else "Mixed")
    health_risk_notes := .str ""
    confidence := .num (.val 70)
    ingredients := .arr [
      .obj [("name", .str (if isHebrew then "מרכיב עיקרי" else "Main ingredient")),
            ("calories", .num (.val 200)), ("protein", .num (.val 15)),
            ("carbs", .num (.val 25)), ("fat", .num (.val 8)),
            ("fiber", .num (.val 4)), ("sugar", .num (.val 5)),
            ("sodium_mg", .num (.val 300))],
      .obj [("name", .str (if isHebrew then "מרכיב משני" else "Secondary ingredient")),
            ("calories", .num (.val 200)), ("protein", .num (.val 10)),
            ("carbs", .num (.val 20)), ("fat", .num (.val 7)),
            ("fiber", .num (.val 4)), ("sugar", .num (.val 5)),
            ("sodium_mg", .num (.val 300))]]
    healthNotes := .str (if isHebrew
      then "ניתוח בסיסי - לתוצאות מדויקות יותר, הוסף מפתח OpenAI"
      else "Basic analysis - for more accurate results, add OpenAI API key")
    recommendations := .str (if isHebrew
      then "המלצות כלליות לתזונה בריאה"
      else "General healthy nutrition recommendations")
    meal_name := .str (if isHebrew then "ארוחה מנותחת" else "Analyzed Meal")
    protein_g := .num (.val 25)
    carbs_g := .num (.val 45)
    fats_g := .num (.val 15)
    fiber_g := .num (.val 8)
    sugar_g := .num (.val 10)
    sodium_mg := .num (.val 600) }

/-- The spread `\x7b ...originalAnalysis \x7d` that starts `getBasicUpdate`:
object fields are copied; other values contribute no fields.  (Spreading a
string would create index fields; that corner is not modelled — every caller
passes an analysis record.) -/
def jsSpread : JsValue → List (String × JsValue)
  | .obj fields => fields
  | _ => []

/-- `getBasicUpdate(originalAnalysis, updateText)`: the keyword-driven
fallback update.  Each step mirrors one statement of the source. -/
def getBasicUpdate (originalAnalysis : JsValue) (updateText : String) : JsValue :=
  let updated := jsSpread originalAnalysis
  let lowerUpdate := jsToLower updateText
  let s1 :=
    if strIncludes lowerUpdate "more protein" || strIncludes lowerUpdate "חלבון" then
      let t := objSet updated "protein" (.num (jsRound (jsMulC (objGet updated "protein") (12/10))))
      objSet t "protein_g" (objGet t "protein")
    else updated
  let s2 :=
    if strIncludes lowerUpdate "less calories" || strIncludes lowerUpdate "פחות קלוריות" then
      objSet s1 "calories" (.num (jsRound (jsMulC (objGet s1 "calories") (8/10))))
    else s1
  let s3 :=
    if strIncludes lowerUpdate "more vegetables" || strIncludes lowerUpdate "ירקות" then
      let t := objSet s2 "fiber" (.num (jsRound (jsMulC (objGet s2 "fiber") (13/10))))
      objSet t "fiber_g" (objGet t "fiber")
    else s2
  let s4 := objSet s3 "healthNotes" (.str ("Updated based on user input: " ++ updateText))
  let s5 := objSet s4 "confidence" (.num (jsMax 50 (jsSubC (objGet s4 "confidence") 10)))
  .obj s5

end OpenAIService

namespace OpenAIService

/-- The fixed Hebrew instruction template of `createAnalysisPrompt`. -/
def basePromptHebrew : String := String.intercalate "\n" [
  "אתה מנתח תזונה מומחה. נתח את תמונת האוכל ותן פירוט תזונתי מדויק.",
  "",
  "החזר JSON בפורמט הזה בדיוק:",
  "\x7b",
  "  \"name\": \"שם המנה\",",
  "  \"description\": \"תיאור קצר\",",
  "  \"calories\": מספר,",
  "  \"protein\": מספר,",
  "  \"carbs\": מספר,",
  "  \"fat\": מספר,",
  "  \"fiber\": מספר,",
  "  \"sugar\": מספר,",
  "  \"sodium\": מספר,",
  "  \"saturated_fats_g\": מספר,",
  "  \"polyunsaturated_fats_g\": מספר,",
  "  \"monounsaturated_fats_g\": מספר,",
  "  \"omega_3_g\": מספר,",
  "  \"omega_6_g\": מספר,",
  "  \"soluble_fiber_g\": מספר,",
  "  \"insoluble_fiber_g\": מספר,",
  "  \"cholesterol_mg\": מספר,",
  "  \"alcohol_g\": מספר,",
  "  \"caffeine_mg\": מספר,",
  "  \"liquids_ml\": מספר,",
  "  \"serving_size_g\": מספר,",
  "  \"glycemic_index\": מספר,",
  "  \"insulin_index\": מספר,",
  "  \"food_category\": \"קטגוריה\",",
  "  \"processing_level\": \"רמת עיבוד\",",
  "  \"cooking_method\": \"שיטת הכנה\",",
  "  \"health_risk_notes\": \"הערות בריאות\",",
  "  \"confidence\": מספר (0-100),",
  "  \"ingredients\": [",
  "    \x7b",
  "      \"name\": \"שם המרכיב\",",
  "      \"calories\": מספר,",
  "      \"protein\": מספר,",
  "      \"carbs\": מספר,",
  "      \"fat\": מספר,",
  "      \"fiber\": מספר,",
  "      \"sugar\": מספר,",
  "      \"sodium_mg\": מספר",
  "    \x7d",
  "  ],",
  "  \"healthNotes\": \"הערות בריאות והמלצות\",",
  "  \"recommendations\": \"המלצות תזונתיות\"",
  "\x7d"]

/-- The fixed English instruction template of `createAnalysisPrompt`. -/
def basePromptEnglish : String := String.intercalate "\n" [
  "You are an expert nutrition analyst. Analyze the food image and provide detailed nutritional information.",
  "",
  "Return JSON in this exact format:",
  "\x7b",
  "  \"name\": \"Dish name\",",
  "  \"description\": \"Brief description\",",
  "  \"calories\": number,",
  "  \"protein\": number,",
  "  \"carbs\": number,",
  "  \"fat\": number,",
  "  \"fiber\": number,",
  "  \"sugar\": number,",
  "  \"sodium\": number,",
  "  \"saturated_fats_g\": number,",
  "  \"polyunsaturated_fats_g\": number,",
  "  \"monounsaturated_fats_g\": number,",
  "  \"omega_3_g\": number,",
  "  \"omega_6_g\": number,",
  "  \"soluble_fiber_g\": number,",
  "  \"insoluble_fiber_g\": number,",
  "  \"cholesterol_mg\": number,",
  "  \"alcohol_g\": number,",
  "  \"caffeine_mg\": number,",
  "  \"liquids_ml\": number,",
  "  \"serving_size_g\": number,",
  "  \"glycemic_index\": number,",
  "  \"insulin_index\": number,",
  "  \"food_category\": \"category\",",
  "  \"processing_level\": \"processing level\",",
  "  \"cooking_method\": \"cooking method\",",
  "  \"health_risk_notes\": \"health notes\",",
  "  \"confidence\": number (0-100),",
  "  \"ingredients\": [",
  "    \x7b",
  "      \"name\": \"ingredient name\",",
  "      \"calories\": number,",
  "      \"protein\": number,",
  "      \"carbs\": number,",
  "      \"fat\": number,",
  "      \"fiber\": number,",
  "      \"sugar\": number,",
  "      \"sodium_mg\": number",
  "    \x7d",
  "  ],",
  "  \"healthNotes\": \"Health notes and recommendations\",",
  "  \"recommendations\": \"Nutritional recommendations\"",
  "\x7d"]

/-- The localized suffix appended when `updateText` is truthy. -/
def updateTextSuffix (isHebrew : Bool) (updateText : String) : String :=
  if isHebrew then "\n\nמידע נוסף מהמשתמש: " ++ updateText
  else "\n\nAdditional user information: " ++ updateText

/-- `JSON.stringify(editedIngredients)` as it appears in the ingredient
suffix (a top-level array never stringifies to `undefined`). -/
def stringifyIngredients (editedIngredients : List JsValue) : String :=
  (jsonStringify (.arr editedIngredients)).getD "null"

/-- The localized suffix appended when `editedIngredients` is nonempty. -/
def editedIngredientsSuffix (isHebrew : Bool) (editedIngredients : List JsValue) : String :=
  if isHebrew then "\n\nמרכיבים שערך המשתמש: " ++ stringifyIngredients editedIngredients
  else "\n\nUser-edited ingredients: " ++ stringifyIngredients editedIngredients

/-- `createAnalysisPrompt(isHebrew, updateText?, editedIngredients = [])`. -/
def createAnalysisPrompt (isHebrew : Bool) (updateText : Option String)
    (editedIngredients : List JsValue) : String :=
  let basePrompt := if isHebrew then basePromptHebrew else basePromptEnglish
  if optTruthy updateText then
    basePrompt ++ updateTextSuffix isHebrew (updateText.getD "")
  else if editedIngredients.length > 0 then
    basePrompt ++ editedIngredientsSuffix isHebrew editedIngredients
  else basePrompt

/-- `createAnalysisPrompt` as invoked by `analyzeMealImage`, which computes
`isHebrew` as `language === "hebrew"`. -/
def analysisPromptForLanguage (language : String) (updateText : Option String)
    (editedIngredients : List JsValue) : String :=
  createAnalysisPrompt (language == "hebrew") updateText editedIngredients

/-- `createUpdatePrompt(originalAnalysis, updateText, isHebrew)`. -/
def createUpdatePrompt (originalAnalysis : JsValue) (updateText : String)
    (isHebrew : Bool) : String :=
  let serialized := (jsonStringify2 originalAnalysis).getD "undefined"
  if isHebrew then
    "עדכן את הניתוח התזונתי הקיים בהתבסס על המידע החדש.\n\nניתוח קיים:\n"
      ++ serialized ++ "\n\nמידע חדש מהמשתמש:\n" ++ updateText
      ++ "\n\nהחזר JSON מעודכן באותו פורמט של הניתוח המקורי."
  else
    "Update the existing nutritional analysis based on the new information.\n\nCurrent analysis:\n"
      ++ serialized ++ "\n\nNew user information:\n" ++ updateText
      ++ "\n\nReturn updated JSON in the same format as the original analysis."

end OpenAIService

/-- A thrown JS error: its message and (for provider errors) the
`status` field the catch blocks dispatch on. -/
structure JsError where
  message : String
  status : Option Nat := none

/-- Outcome of the external OpenAI chat-completion call:
`ok content` is a response whose `choices[0]?.message?.content` is `content`
(possibly absent), `err` is a thrown provider error. -/
inductive ProviderResult where
  | ok (content : Option String)
  | err (e : JsError)

namespace OpenAIService

/-- The normalized record as the JS object the service returns (field order
of the source's object literal). -/
def NutritionRecord.toObj (r : NutritionRecord) : JsValue :=
  .obj [("name", r.name), ("description", r.description), ("calories", r.calories),
    ("protein", r.protein), ("carbs", r.carbs), ("fat", r.fat), ("fiber", r.fiber),
    ("sugar", r.sugar), ("sodium", r.sodium), ("saturated_fats_g", r.saturated_fats_g),
    ("polyunsaturated_fats_g", r.polyunsaturated_fats_g),
    ("monounsaturated_fats_g", r.monounsaturated_fats_g), ("omega_3_g", r.omega_3_g),
    ("omega_6_g", r.omega_6_g), ("soluble_fiber_g", r.soluble_fiber_g),
    ("insoluble_fiber_g", r.insoluble_fiber_g), ("cholesterol_mg", r.cholesterol_mg),
    ("alcohol_g", r.alcohol_g), ("caffeine_mg", r.caffeine_mg),
    ("liquids_ml", r.liquids_ml), ("serving_size_g", r.serving_size_g),
    ("glycemic_index", r.glycemic_index), ("insulin_index", r.insulin_index),
    ("food_category", r.food_category), ("processing_level", r.processing_level),
    ("cooking_method", r.cooking_method), ("health_risk_notes", r.health_risk_notes),
    ("confidence", r.confidence), ("ingredients", r.ingredients),
    ("healthNotes", r.healthNotes), ("recommendations", r.recommendations),
    ("meal_name", r.meal_name), ("protein_g", r.protein_g), ("carbs_g", r.carbs_g),
    ("fats_g", r.fats_g), ("fiber_g", r.fiber_g), ("sugar_g", r.sugar_g),
    ("sodium_mg", r.sodium_mg)]

/-- The `data:image/` payload extraction of `analyzeMealImage`:
`imageBase64.split(",")[1]` — when the data URI has no comma the index read
is `undefined`, which `RegExp.test` stringifies to `"undefined"`. -/
def cleanBase64Of (imageBase64 : String) : String :=
  if strStartsWith imageBase64 "data:image/" then
    match (splitOnChar ',' imageBase64.data)[1]? with
    | some l => String.mk l
    | none => "undefined"
  else imageBase64

/-- The `try` body of `analyzeMealImage`.  `apiConfigured` models
`openai && process.env.OPENAI_API_KEY` (both reflect the same configuration);
`provider` maps the system prompt to the external call's outcome; `parseJson`
is the composition of the external `extractCleanJSON` and `parsePartialJSON`
utilities applied to the returned content. -/
def analyzeMealImageBody (apiConfigured : Bool) (provider : String → ProviderResult)
    (parseJson : String → Except JsError JsValue) (imageBase64 : String)
    (language : String) (updateText : Option String)
    (editedIngredients : List JsValue) : Except JsError NutritionRecord :=
  if !apiConfigured then .ok (getFallbackAnalysis language)
  else if imageBase64 == "" || jsTrim imageBase64 == "" then
    .error { message := "Image data is required" }
  else
    let cleanBase64 := cleanBase64Of imageBase64
    if !base64Test cleanBase64 then .error { message := "Invalid base64 image format" }
    else
      let isHebrew := language == "hebrew"
      let systemPrompt := createAnalysisPrompt isHebrew updateText editedIngredients
      match provider systemPrompt with
      | .err e => .error e
      | .ok none => .error { message := "No response from OpenAI" }
      | .ok (some content) =>
          match parseJson content with
          | .error e => .error e
          | .ok analysis =>
              match normalizeAnalysisResponse analysis with
              | .error msg => .error { message := msg }
              | .ok normalized => .ok normalized

/-- The catch block of `analyzeMealImage`: provider status codes 400, 401,
429 and 500 are re-thrown as fresh errors with fixed user-facing messages;
any other error becomes the fallback analysis. -/
def analyzeCatch (language : String) (e : JsError) : Except JsError NutritionRecord :=
  if e.status == some 400 then
    .error { message := "Invalid image data or request format" }
  else if e.status == some 401 then
    .error { message := "OpenAI API authentication failed" }
  else if e.status == some 429 then
    .error { message := "OpenAI API rate limit exceeded. Please try again later." }
  else if e.status == some 500 then
    .error { message := "OpenAI service temporarily unavailable" }
  else .ok (getFallbackAnalysis language)

/-- `analyzeMealImage`: the `try` body above plus the catch block. -/
def analyzeMealImage (apiConfigured : Bool) (provider : String → ProviderResult)
    (parseJson : String → Except JsError JsValue) (imageBase64 : String)
    (language : String) (updateText : Option String)
    (editedIngredients : List JsValue) : Except JsError NutritionRecord :=
  match analyzeMealImageBody apiConfigured provider parseJson imageBase64 language
      updateText editedIngredients with
  | .ok r => .ok r
  | .error e => analyzeCatch language e

/-- The `try` body of `updateMealAnalysis`. -/
def updateMealAnalysisBody (apiConfigured : Bool) (provider : String → ProviderResult)
    (parseJson : String → Except JsError JsValue) (originalAnalysis : JsValue)
    (updateText : String) (language : String) : Except JsError JsValue :=
  if !apiConfigured then .ok (getBasicUpdate originalAnalysis updateText)
  else
    let isHebrew := language == "hebrew"
    let prompt := createUpdatePrompt originalAnalysis updateText isHebrew
    match provider prompt with
    | .err e => .error e
    | .ok none => .error { message := "No response from OpenAI" }
    | .ok (some content) =>
        match parseJson content with
        | .error e => .error e
        | .ok updatedAnalysis =>
            match normalizeAnalysisResponse updatedAnalysis with
            | .error msg => .error { message := msg }
            | .ok normalized => .ok (NutritionRecord.toObj normalized)

/-- `updateMealAnalysis`: the `try` body plus the catch block, which converts
every failure into `getBasicUpdate`. -/
def updateMealAnalysis (apiConfigured : Bool) (provider : String → ProviderResult)
    (parseJson : String → Except JsError JsValue) (originalAnalysis : JsValue)
    (updateText : String) (language : String) : Except JsError JsValue :=
  match updateMealAnalysisBody apiConfigured provider parseJson originalAnalysis
      updateText language with
  | .ok r => .ok r
  | .error _ => .ok (getBasicUpdate originalAnalysis updateText)

end OpenAIService

/-- A JS value that is a finite (non-NaN) number. -/
def isFiniteNum (x : JsValue) : Prop := ∃ q : ℚ, x = .num (.val q)

/-- A JS value that is neither `null` nor `undefined`. -/
def notNullish (x : JsValue) : Prop := x ≠ .null ∧ x ≠ .undefined

/-- The field typing guaranteed by the normalizer: every core numeric field
and every alias is a finite number, the four descriptive fields are
non-nullish, the two index fields are `null` or a number (possibly NaN), and
`ingredients` is array-typed. -/
def WellTypedRecord (r : NutritionRecord) : Prop :=
  isFiniteNum r.calories ∧ isFiniteNum r.protein ∧ isFiniteNum r.carbs ∧
  isFiniteNum r.fat ∧ isFiniteNum r.fiber ∧ isFiniteNum r.sugar ∧
  isFiniteNum r.sodium ∧ isFiniteNum r.saturated_fats_g ∧
  isFiniteNum r.polyunsaturated_fats_g ∧ isFiniteNum r.monounsaturated_fats_g ∧
  isFiniteNum r.omega_3_g ∧ isFiniteNum r.omega_6_g ∧
  isFiniteNum r.soluble_fiber_g ∧ isFiniteNum r.insoluble_fiber_g ∧
  isFiniteNum r.cholesterol_mg ∧ isFiniteNum r.alcohol_g ∧
  isFiniteNum r.caffeine_mg ∧ isFiniteNum r.liquids_ml ∧
  isFiniteNum r.serving_size_g ∧ isFiniteNum r.confidence ∧
  isFiniteNum r.protein_g ∧ isFiniteNum r.carbs_g ∧ isFiniteNum r.fats_g ∧
  isFiniteNum r.fiber_g ∧ isFiniteNum r.sugar_g ∧ isFiniteNum r.sodium_mg ∧
  notNullish r.food_category ∧ notNullish r.processing_level ∧
  notNullish r.cooking_method ∧ notNullish r.health_risk_notes ∧
  (r.glycemic_index = .null ∨ ∃ n, r.glycemic_index = .num n) ∧
  (r.insulin_index = .null ∨ ∃ n, r.insulin_index = .num n) ∧
  (∃ xs, r.ingredients = .arr xs)


section Lemmas

open OpenAIService

/-- On any non-nullish receiver, `normalizeAnalysisResponse` succeeds and is
the pure field coercion. -/
theorem normalize_ok (v : JsValue) (h1 : v ≠ .null) (h2 : v ≠ .undefined) :
    normalizeAnalysisResponse v = .ok (coerceAnalysis (jsAccess v)) := by
  cases v <;> first
    | rfl
    | exact absurd rfl h1
    | exact absurd rfl h2

/-- `Number(x) || d` always produces a finite (non-NaN) number value. -/
theorem numOr_isNum (x : JsValue) (d : ℚ) : ∃ q, numOr x d = .num (.val q) := by
  unfold numOr jsOr
  cases h : jsToNumber x with
  | nan => exact ⟨d, by simp [jsTruthy]⟩
  | val q =>
      by_cases hq : q = 0
      · subst hq; exact ⟨d, by simp [jsTruthy]⟩
      · exact ⟨q, by simp [jsTruthy, hq]⟩

/-- `x || s` with a string default is never `null` nor `undefined`. -/
theorem jsOr_str_notNullish (x : JsValue) (s : String) :
    jsOr x (.str s) ≠ .null ∧ jsOr x (.str s) ≠ .undefined := by
  unfold jsOr
  by_cases h : jsTruthy x = true
  · simp only [h, if_true]
    cases x <;> simp_all [jsTruthy]
  · simp only [h, if_false]
    constructor <;> simp

/-- Reading back a freshly assigned field. -/
theorem objGet_objSet_same (l : List (String × JsValue)) (k : String) (v : JsValue) :
    objGet (objSet l k v) k = v := by
  induction l with
  | nil => simp [objGet, objSet]
  | cons kv rest ih =>
      obtain ⟨k', v'⟩ := kv
      by_cases h : k' = k
      · subst h; simp [objGet, objSet]
      · simp [objGet, objSet, h, ih]

/-- Assignments to other keys do not change a field. -/
theorem objGet_objSet_diff (l : List (String × JsValue)) (k k' : String) (v : JsValue)
    (h : k' ≠ k) : objGet (objSet l k v) k' = objGet l k' := by
  induction l with
  | nil => simp [objGet, objSet, Ne.symm h]
  | cons kv rest ih =>
      obtain ⟨k'', v''⟩ := kv
      simp only [objSet]
      by_cases h2 : k'' = k
      · subst h2
        simp only [if_pos rfl, objGet, if_neg (Ne.symm h)]
      · simp only [if_neg h2, objGet]
        by_cases h3 : k'' = k'
        · simp [h3]
        · simp [h3, ih]

end Lemmas

open OpenAIService

/-- C3 counterexample: `normalize` is not total on the value `null` itself.
The first property read (`analysis.name`) raises a TypeError, so
`normalizeAnalysisResponse null` is an error rather than a record. -/
theorem normalize_null_raises :
    normalizeAnalysisResponse .null
      = .error "TypeError: Cannot read properties of null (reading name)" := rfl

/-- C3 (amended): `normalize` is total on every input value other than `null`
and `undefined` — any object with missing or wrong-typed fields, and any
non-nullish primitive, yields a NutritionRecord without error. -/
theorem normalize_total_except_nullish (v : JsValue) (h1 : v ≠ .null)
    (h2 : v ≠ .undefined) : ∃ r, normalizeAnalysisResponse v = .ok r :=
  ⟨_, normalize_ok v h1 h2⟩

/-- C3 witness: the amended totality evaluated at a wrong-typed input. -/
theorem normalize_total_except_nullish_witness :
    (JsValue.str "toast") ≠ .null ∧ (JsValue.str "toast") ≠ .undefined ∧
      ∃ r, normalizeAnalysisResponse (.str "toast") = .ok r :=
  ⟨by simp, by simp, normalize_total_except_nullish (.str "toast") (by simp) (by simp)⟩

/-- C4 counterexample: a truthy non-numeric `glycemic_index` input normalizes
to NaN, which is neither a valid number nor `null`, refuting the claimed
typing of the index fields (the claim also fails on the input `null` itself
and on truthy non-string descriptive fields). -/
theorem normalize_glycemic_nan :
    (normalizeAnalysisResponse (.obj [("glycemic_index", .str "high")])).map
        (fun r => r.glycemic_index) = .ok (.num .nan) := by
  with_unfolding_all rfl

/-- C4 (amended): for every input other than `null` and `undefined`,
`normalize` returns a record in which every core numeric field and every
alias is a finite number, the four descriptive fields are non-nullish (a
truthy non-string input passes through unchanged), `glycemic_index` and
`insulin_index` are `null` or a number value (possibly NaN), `ingredients`
is array-typed, and missing numeric inputs take the defaults 0, 100
(`serving_size_g`) and 75 (`confidence`). -/
theorem normalize_field_typing (v : JsValue) (h1 : v ≠ .null) (h2 : v ≠ .undefined) :
    ∃ r, normalizeAnalysisResponse v = .ok r ∧ WellTypedRecord r ∧
      (jsAccess v "calories" = .undefined → r.calories = .num (.val 0)) ∧
      (jsAccess v "serving_size_g" = .undefined → r.serving_size_g = .num (.val 100)) ∧
      (jsAccess v "confidence" = .undefined → r.confidence = .num (.val 75)) := by
  refine ⟨_, normalize_ok v h1 h2, ?_, ?_, ?_, ?_⟩
  · refine ⟨numOr_isNum _ _, numOr_isNum _ _, numOr_isNum _ _, numOr_isNum _ _,
      numOr_isNum _ _, numOr_isNum _ _, numOr_isNum _ _, numOr_isNum _ _,
      numOr_isNum _ _, numOr_isNum _ _, numOr_isNum _ _, numOr_isNum _ _,
      numOr_isNum _ _, numOr_isNum _ _, numOr_isNum _ _, numOr_isNum _ _,
      numOr_isNum _ _, numOr_isNum _ _, numOr_isNum _ _, numOr_isNum _ _,
      numOr_isNum _ _, numOr_isNum _ _, numOr_isNum _ _, numOr_isNum _ _,
      numOr_isNum _ _, numOr_isNum _ _, jsOr_str_notNullish _ _,
      jsOr_str_notNullish _ _, jsOr_str_notNullish _ _, jsOr_str_notNullish _ _,
      ?_, ?_, ?_⟩
    · by_cases h : jsTruthy (jsAccess v "glycemic_index") = true
      · exact Or.inr ⟨jsToNumber (jsAccess v "glycemic_index"),
          by simp [coerceAnalysis, h]⟩
      · exact Or.inl (by simp [coerceAnalysis, h])
    · by_cases h : jsTruthy (jsAccess v "insulin_index") = true
      · exact Or.inr ⟨jsToNumber (jsAccess v "insulin_index"),
          by simp [coerceAnalysis, h]⟩
      · exact Or.inl (by simp [coerceAnalysis, h])
    · simp only [coerceAnalysis]
      cases hi : jsAccess v "ingredients" <;> exact ⟨_, rfl⟩
  · intro h
    show numOr (jsAccess v "calories") 0 = .num (.val 0)
    rw [h]
    rfl
  · intro h
    show numOr (jsAccess v "serving_size_g") 100 = .num (.val 100)
    rw [h]
    rfl
  · intro h
    show numOr (jsAccess v "confidence") 75 = .num (.val 75)
    rw [h]
    rfl

/-- C4 witness: the amended typing evaluated at an object with a wrong-typed
field. -/
theorem normalize_field_typing_witness :
    ∃ r, normalizeAnalysisResponse (.obj [("protein", .bool true)]) = .ok r ∧
      WellTypedRecord r ∧
      (jsAccess (.obj [("protein", .bool true)]) "calories" = .undefined →
        r.calories = .num (.val 0)) ∧
      (jsAccess (.obj [("protein", .bool true)]) "serving_size_g" = .undefined →
        r.serving_size_g = .num (.val 100)) ∧
      (jsAccess (.obj [("protein", .bool true)]) "confidence" = .undefined →
        r.confidence = .num (.val 75)) :=
  normalize_field_typing (.obj [("protein", .bool true)]) (by simp) (by simp)

/-- C5 (confirmed): every record produced by the normalizer has each legacy
alias equal to its primary counterpart: `meal_name = name`,
`protein_g = protein`, `carbs_g = carbs`, `fats_g = fat`, `fiber_g = fiber`,
`sugar_g = sugar`, `sodium_mg = sodium`. -/
theorem normalize_alias_invariant (v : JsValue) (r : NutritionRecord)
    (h : normalizeAnalysisResponse v = .ok r) :
    r.meal_name = r.name ∧ r.protein_g = r.protein ∧ r.carbs_g = r.carbs ∧
    r.fats_g = r.fat ∧ r.fiber_g = r.fiber ∧ r.sugar_g = r.sugar ∧
    r.sodium_mg = r.sodium := by
  cases v <;> simp only [normalizeAnalysisResponse, reduceCtorEq,
    Except.ok.injEq] at h <;> subst h <;>
    exact ⟨rfl, rfl, rfl, rfl, rfl, rfl, rfl⟩

/-- C5 witness: the alias invariant evaluated on a concrete normalization. -/
theorem normalize_alias_invariant_witness :
    (coerceAnalysis (jsAccess (.obj [("name", .str "Salad")]))).meal_name
        = (coerceAnalysis (jsAccess (.obj [("name", .str "Salad")]))).name ∧
      (coerceAnalysis (jsAccess (.obj [("name", .str "Salad")]))).protein_g
        = (coerceAnalysis (jsAccess (.obj [("name", .str "Salad")]))).protein ∧
      (coerceAnalysis (jsAccess (.obj [("name", .str "Salad")]))).carbs_g
        = (coerceAnalysis (jsAccess (.obj [("name", .str "Salad")]))).carbs ∧
      (coerceAnalysis (jsAccess (.obj [("name", .str "Salad")]))).fats_g
        = (coerceAnalysis (jsAccess (.obj [("name", .str "Salad")]))).fat ∧
      (coerceAnalysis (jsAccess (.obj [("name", .str "Salad")]))).fiber_g
        = (coerceAnalysis (jsAccess (.obj [("name", .str "Salad")]))).fiber ∧
      (coerceAnalysis (jsAccess (.obj [("name", .str "Salad")]))).sugar_g
        = (coerceAnalysis (jsAccess (.obj [("name", .str "Salad")]))).sugar ∧
      (coerceAnalysis (jsAccess (.obj [("name", .str "Salad")]))).sodium_mg
        = (coerceAnalysis (jsAccess (.obj [("name", .str "Salad")]))).sodium :=
  normalize_alias_invariant (.obj [("name", .str "Salad")]) _ rfl

/-- C7 (confirmed): `normalize` applied to the empty object takes all the
documented defaults, and on any input with `calories: "200"` and
`protein: null` it coerces the string to 200 and the null to 0. -/
theorem normalize_defaults_and_coercion :
    (∃ r, normalizeAnalysisResponse (.obj []) = .ok r ∧
      r.calories = .num (.val 0) ∧ r.protein = .num (.val 0) ∧
      r.serving_size_g = .num (.val 100) ∧ r.confidence = .num (.val 75) ∧
      r.glycemic_index = .null ∧ r.food_category = .str "Mixed" ∧
      r.ingredients = .arr []) ∧
    (∀ fields, objGet fields "calories" = .str "200" →
      objGet fields "protein" = .null →
      ∃ r, normalizeAnalysisResponse (.obj fields) = .ok r ∧
        r.calories = .num (.val 200) ∧ r.protein = .num (.val 0)) := by
  constructor
  · exact ⟨_, rfl, by with_unfolding_all rfl, by with_unfolding_all rfl,
      by with_unfolding_all rfl, by with_unfolding_all rfl, rfl, rfl, rfl⟩
  · intro fields h1 h2
    refine ⟨_, rfl, ?_, ?_⟩
    · show numOr (objGet fields "calories") 0 = .num (.val 200)
      rw [h1]
      with_unfolding_all rfl
    · show numOr (objGet fields "protein") 0 = .num (.val 0)
      rw [h2]
      with_unfolding_all rfl

/-- C7 witness: the string/null coercion branch evaluated at a concrete
object. -/
theorem normalize_defaults_and_coercion_witness :
    ∃ r, normalizeAnalysisResponse
        (.obj [("calories", .str "200"), ("protein", .null)]) = .ok r ∧
      r.calories = .num (.val 200) ∧ r.protein = .num (.val 0) :=
  normalize_defaults_and_coercion.2 [("calories", .str "200"), ("protein", .null)] rfl rfl

/-- C6 (confirmed): `getBasicUpdate` applies its three keyword rules
independently and cumulatively on the lowercased text — "more protein"
multiplies `protein` by 1.2 (rounded) and propagates to `protein_g`,
"less calories" multiplies `calories` by 0.8 (rounded), "more vegetables"
multiplies `fiber` by 1.3 (rounded) and propagates to `fiber_g` — always
overwrites `healthNotes` with the templated string embedding the raw update
text, and sets `confidence` to `max 50 (confidence - 10)`; in particular the
two documented examples hold. -/
theorem basicUpdate_rules :
    (∀ (fields : List (String × JsValue)) (p c fb conf : ℚ) (text : String),
      objGet fields "protein" = .num (.val p) →
      objGet fields "calories" = .num (.val c) →
      objGet fields "fiber" = .num (.val fb) →
      objGet fields "confidence" = .num (.val conf) →
      ∃ g, getBasicUpdate (.obj fields) text = .obj g ∧
        (strIncludes (jsToLower text) "more protein" = true →
          objGet g "protein" = .num (jsRound (.val (p * (12/10)))) ∧
          objGet g "protein_g" = objGet g "protein") ∧
        (strIncludes (jsToLower text) "less calories" = true →
          objGet g "calories" = .num (jsRound (.val (c * (8/10))))) ∧
        (strIncludes (jsToLower text) "more vegetables" = true →
          objGet g "fiber" = .num (jsRound (.val (fb * (13/10)))) ∧
          objGet g "fiber_g" = objGet g "fiber") ∧
        objGet g "healthNotes" = .str ("Updated based on user input: " ++ text) ∧
        objGet g "confidence" = .num (.val (max 50 (conf - 10)))) ∧
    (jsAccess (getBasicUpdate (.obj [("calories", .num (.val 100)),
        ("protein", .num (.val 10)), ("fiber", .num (.val 5)),
        ("confidence", .num (.val 80))]) "I want more protein please") "protein"
        = .num (.val 12) ∧
      jsAccess (getBasicUpdate (.obj [("calories", .num (.val 100)),
        ("protein", .num (.val 10)), ("fiber", .num (.val 5)),
        ("confidence", .num (.val 80))]) "I want more protein please") "protein_g"
        = .num (.val 12) ∧
      jsAccess (getBasicUpdate (.obj [("calories", .num (.val 100)),
        ("protein", .num (.val 10)), ("fiber", .num (.val 5)),
        ("confidence", .num (.val 80))]) "I want more protein please") "calories"
        = .num (.val 100) ∧
      jsAccess (getBasicUpdate (.obj [("calories", .num (.val 100)),
        ("protein", .num (.val 10)), ("fiber", .num (.val 5)),
        ("confidence", .num (.val 80))]) "I want more protein please") "confidence"
        = .num (.val 70)) ∧
    jsAccess (getBasicUpdate (.obj [("confidence", .num (.val 55))]) "anything")
        "confidence" = .num (.val 50) := by
  refine ⟨?_, ⟨?_, ?_, ?_, ?_⟩, ?_⟩
  · intro fields p c fb conf text hp hc hf hconf
    unfold getBasicUpdate
    refine ⟨_, rfl, ?_, ?_, ?_, ?_, ?_⟩
    · intro hmp
      rcases Bool.eq_false_or_eq_true (strIncludes (jsToLower text) "less calories"
          || strIncludes (jsToLower text) "פחות קלוריות") with hb2 | hb2 <;>
        rcases Bool.eq_false_or_eq_true (strIncludes (jsToLower text) "more vegetables"
            || strIncludes (jsToLower text) "ירקות") with hb3 | hb3 <;>
        refine ⟨?_, ?_⟩ <;>
        simp [jsSpread, hmp, hb2, hb3, objGet_objSet_same, objGet_objSet_diff,
          hp, jsMulC, jsToNumber]
    · intro hlc
      rcases Bool.eq_false_or_eq_true (strIncludes (jsToLower text) "more protein"
          || strIncludes (jsToLower text) "חלבון") with hb1 | hb1 <;>
        rcases Bool.eq_false_or_eq_true (strIncludes (jsToLower text) "more vegetables"
            || strIncludes (jsToLower text) "ירקות") with hb3 | hb3 <;>
        simp [jsSpread, hlc, hb1, hb3, objGet_objSet_same, objGet_objSet_diff,
          hc, jsMulC, jsToNumber]
    · intro hmv
      rcases Bool.eq_false_or_eq_true (strIncludes (jsToLower text) "more protein"
          || strIncludes (jsToLower text) "חלבון") with hb1 | hb1 <;>
        rcases Bool.eq_false_or_eq_true (strIncludes (jsToLower text) "less calories"
            || strIncludes (jsToLower text) "פחות קלוריות") with hb2 | hb2 <;>
        refine ⟨?_, ?_⟩ <;>
        simp [jsSpread, hmv, hb1, hb2, objGet_objSet_same, objGet_objSet_diff,
          hf, jsMulC, jsToNumber]
    · rcases Bool.eq_false_or_eq_true (strIncludes (jsToLower text) "more protein"
          || strIncludes (jsToLower text) "חלבון") with hb1 | hb1 <;>
        rcases Bool.eq_false_or_eq_true (strIncludes (jsToLower text) "less calories"
            || strIncludes (jsToLower text) "פחות קלוריות") with hb2 | hb2 <;>
        rcases Bool.eq_false_or_eq_true (strIncludes (jsToLower text) "more vegetables"
            || strIncludes (jsToLower text) "ירקות") with hb3 | hb3 <;>
        simp [jsSpread, hb1, hb2, hb3, objGet_objSet_same, objGet_objSet_diff]
    · rcases Bool.eq_false_or_eq_true (strIncludes (jsToLower text) "more protein"
          || strIncludes (jsToLower text) "חלבון") with hb1 | hb1 <;>
        rcases Bool.eq_false_or_eq_true (strIncludes (jsToLower text) "less calories"
            || strIncludes (jsToLower text) "פחות קלוריות") with hb2 | hb2 <;>
        rcases Bool.eq_false_or_eq_true (strIncludes (jsToLower text) "more vegetables"
            || strIncludes (jsToLower text) "ירקות") with hb3 | hb3 <;>
        simp [jsSpread, hb1, hb2, hb3, objGet_objSet_same, objGet_objSet_diff,
          hconf, jsSubC, jsMax, jsToNumber]
  · with_unfolding_all rfl
  · with_unfolding_all rfl
  · with_unfolding_all rfl
  · with_unfolding_all rfl
  · with_unfolding_all rfl

/-- C6 witness: the keyword rules evaluated at the documented example
record and text. -/
theorem basicUpdate_rules_witness :
    ∃ g, getBasicUpdate (.obj [("calories", .num (.val 100)),
        ("protein", .num (.val 10)), ("fiber", .num (.val 5)),
        ("confidence", .num (.val 80))]) "I want more protein please" = .obj g ∧
      (strIncludes (jsToLower "I want more protein please") "more protein" = true →
        objGet g "protein" = .num (jsRound (.val (10 * (12/10)))) ∧
        objGet g "protein_g" = objGet g "protein") ∧
      (strIncludes (jsToLower "I want more protein please") "less calories" = true →
        objGet g "calories" = .num (jsRound (.val (100 * (8/10))))) ∧
      (strIncludes (jsToLower "I want more protein please") "more vegetables" = true →
        objGet g "fiber" = .num (jsRound (.val (5 * (13/10)))) ∧
        objGet g "fiber_g" = objGet g "fiber") ∧
      objGet g "healthNotes"
        = .str ("Updated based on user input: " ++ "I want more protein please") ∧
      objGet g "confidence" = .num (.val (max 50 (80 - 10))) :=
  basicUpdate_rules.1 [("calories", .num (.val 100)), ("protein", .num (.val 10)),
    ("fiber", .num (.val 5)), ("confidence", .num (.val 80))] 10 100 5 80
    "I want more protein please" rfl rfl rfl rfl

set_option maxRecDepth 100000 in
/-- C8 (confirmed): `createAnalysisPrompt` appends at most one suffix, with a
truthy `updateText` taking precedence over `editedIngredients`; the English
prompt for update text "add more rice" contains the literal substring
"Additional user information: add more rice" and does not contain the
edited-ingredients suffix. -/
theorem createAnalysisPrompt_suffix_precedence :
    (∀ (isHebrew : Bool) (u : String) (editedIngredients : List JsValue), u ≠ "" →
      createAnalysisPrompt isHebrew (some u) editedIngredients
        = (if isHebrew then basePromptHebrew else basePromptEnglish)
          ++ updateTextSuffix isHebrew u) ∧
    (∀ (isHebrew : Bool) (updateText : Option String)
        (editedIngredients : List JsValue),
      optTruthy updateText = false → editedIngredients ≠ [] →
      createAnalysisPrompt isHebrew updateText editedIngredients
        = (if isHebrew then basePromptHebrew else basePromptEnglish)
          ++ editedIngredientsSuffix isHebrew editedIngredients) ∧
    strIncludes (createAnalysisPrompt false (some "add more rice") [])
      "Additional user information: add more rice" = true ∧
    strIncludes (createAnalysisPrompt false (some "add more rice") [])
      "User-edited ingredients:" = false := by
  refine ⟨?_, ?_, ?_, ?_⟩
  · intro isHebrew u editedIngredients hu
    have ht : optTruthy (some u) = true := by simp [optTruthy, hu]
    simp [createAnalysisPrompt, ht]
  · intro isHebrew updateText editedIngredients hfalse hne
    have hlen : 0 < editedIngredients.length := List.length_pos.mpr hne
    simp [createAnalysisPrompt, hfalse, hlen]
  · decide
  · decide

/-- C8 witness: the precedence equation evaluated at the documented inputs. -/
theorem createAnalysisPrompt_suffix_precedence_witness :
    createAnalysisPrompt false (some "add more rice") []
      = (if false then basePromptHebrew else basePromptEnglish)
        ++ updateTextSuffix false "add more rice" :=
  createAnalysisPrompt_suffix_precedence.1 false "add more rice" [] (by simp)

/-- C9 (confirmed): every locale other than "hebrew" produces exactly the
prompt produced for "english" — unsupported locales fail open to the
non-special-cased language. -/
theorem analysisPrompt_locale_fail_open (language : String) (h : language ≠ "hebrew")
    (updateText : Option String) (editedIngredients : List JsValue) :
    analysisPromptForLanguage language updateText editedIngredients
      = analysisPromptForLanguage "english" updateText editedIngredients := by
  unfold analysisPromptForLanguage
  have hb : (language == "hebrew") = false := by simp [h]
  rw [hb]
  rfl

/-- C9 witness: the fail-open equation evaluated at the unsupported locale
"french". -/
theorem analysisPrompt_locale_fail_open_witness :
    ("french" : String) ≠ "hebrew" ∧
      analysisPromptForLanguage "french" (some "x") []
        = analysisPromptForLanguage "english" (some "x") [] :=
  ⟨by simp, analysisPrompt_locale_fail_open "french" (by simp) (some "x") []⟩

/-- C10 (confirmed): with no API key configured, `analyzeMealImage` returns
the fallback before any image validation — for every payload (empty or
malformed included) and every provider behaviour the result is exactly
`getFallbackAnalysis language` and no error is thrown. -/
theorem analyze_unconfigured_fallback (provider : String → ProviderResult)
    (parseJson : String → Except JsError JsValue) (imageBase64 language : String)
    (updateText : Option String) (editedIngredients : List JsValue) :
    analyzeMealImage false provider parseJson imageBase64 language updateText
      editedIngredients = .ok (getFallbackAnalysis language) := rfl

/-- C1 counterexample: a provider error with status 401 is not converted to
the fallback — `analyzeMealImage` re-throws it as a fresh error with the
fixed authentication message, so the entry point does propagate errors. -/
theorem analyze_rethrows_provider_status :
    analyzeMealImage true (fun _ => .err { message := "boom", status := some 401 })
      (fun _ => .ok .null) "QUJD" "english" none []
      = .error { message := "OpenAI API authentication failed" } := by
  with_unfolding_all rfl

/-- C1 (amended): `updateMealAnalysis` converts every pipeline error into
exactly `getBasicUpdate originalAnalysis updateText` and so never errors;
`analyzeMealImage` converts every pipeline error into exactly
`getFallbackAnalysis language` except errors carrying provider status 400,
401, 429 or 500, each of which is re-thrown as a fresh error with its fixed
user-facing message. -/
theorem errorHandling_catch_policy :
    (∀ (apiConfigured : Bool) (provider : String → ProviderResult)
        (parseJson : String → Except JsError JsValue) (originalAnalysis : JsValue)
        (updateText language : String) (e : JsError),
      updateMealAnalysisBody apiConfigured provider parseJson originalAnalysis
          updateText language = .error e →
      updateMealAnalysis apiConfigured provider parseJson originalAnalysis
          updateText language = .ok (getBasicUpdate originalAnalysis updateText)) ∧
    (∀ (apiConfigured : Bool) (provider : String → ProviderResult)
        (parseJson : String → Except JsError JsValue) (originalAnalysis : JsValue)
        (updateText language : String),
      ∃ r, updateMealAnalysis apiConfigured provider parseJson originalAnalysis
        updateText language = .ok r) ∧
    (∀ (apiConfigured : Bool) (provider : String → ProviderResult)
        (parseJson : String → Except JsError JsValue) (imageBase64 language : String)
        (updateText : Option String) (editedIngredients : List JsValue) (e : JsError),
      analyzeMealImageBody apiConfigured provider parseJson imageBase64 language
          updateText editedIngredients = .error e →
      ((e.status ≠ some 400 → e.status ≠ some 401 → e.status ≠ some 429 →
          e.status ≠ some 500 →
          analyzeMealImage apiConfigured provider parseJson imageBase64 language
            updateText editedIngredients = .ok (getFallbackAnalysis language)) ∧
        (e.status = some 400 →
          analyzeMealImage apiConfigured provider parseJson imageBase64 language
            updateText editedIngredients
            = .error { message := "Invalid image data or request format" }) ∧
        (e.status = some 401 →
          analyzeMealImage apiConfigured provider parseJson imageBase64 language
            updateText editedIngredients
            = .error { message := "OpenAI API authentication failed" }) ∧
        (e.status = some 429 →
          analyzeMealImage apiConfigured provider parseJson imageBase64 language
            updateText editedIngredients
            = .error { message := "OpenAI API rate limit exceeded. Please try again later." }) ∧
        (e.status = some 500 →
          analyzeMealImage apiConfigured provider parseJson imageBase64 language
            updateText editedIngredients
            = .error { message := "OpenAI service temporarily unavailable" }))) := by
  refine ⟨?_, ?_, ?_⟩
  · intro apiConfigured provider parseJson originalAnalysis updateText language e hbody
    simp [updateMealAnalysis, hbody]
  · intro apiConfigured provider parseJson originalAnalysis updateText language
    cases hbody : updateMealAnalysisBody apiConfigured provider parseJson
        originalAnalysis updateText language with
    | ok r => exact ⟨r, by simp [updateMealAnalysis, hbody]⟩
    | error e =>
        exact ⟨getBasicUpdate originalAnalysis updateText,
          by simp [updateMealAnalysis, hbody]⟩
  · intro apiConfigured provider parseJson imageBase64 language updateText
      editedIngredients e hbody
    have hcatch : analyzeMealImage apiConfigured provider parseJson imageBase64
        language updateText editedIngredients = analyzeCatch language e := by
      simp [analyzeMealImage, hbody]
    rw [hcatch]
    refine ⟨?_, ?_, ?_, ?_, ?_⟩
    · intro h1 h2 h3 h4
      have hb1 : (e.status == some 400) = false := beq_eq_false_iff_ne.mpr h1
      have hb2 : (e.status == some 401) = false := beq_eq_false_iff_ne.mpr h2
      have hb3 : (e.status == some 429) = false := beq_eq_false_iff_ne.mpr h3
      have hb4 : (e.status == some 500) = false := beq_eq_false_iff_ne.mpr h4
      simp [analyzeCatch, hb1, hb2, hb3, hb4]
    · intro h
      simp [analyzeCatch, h]
    · intro h
      simp [analyzeCatch, h]
    · intro h
      simp [analyzeCatch, h]
    · intro h
      simp [analyzeCatch, h]

/-- C1 witness: the catch policy evaluated at concrete failing pipelines —
an update-path provider error converts to `getBasicUpdate`, and an
analysis-path provider error with status 429 re-throws the fixed rate-limit
message. -/
theorem errorHandling_catch_policy_witness :
    (updateMealAnalysisBody true (fun _ => .err { message := "x" }) (fun _ => .ok .null)
        (.obj []) "hi" "english" = .error { message := "x" } ∧
      updateMealAnalysis true (fun _ => .err { message := "x" }) (fun _ => .ok .null)
        (.obj []) "hi" "english" = .ok (getBasicUpdate (.obj []) "hi")) ∧
    (analyzeMealImageBody true (fun _ => .err { message := "boom", status := some 429 })
        (fun _ => .ok .null) "QUJD" "english" none []
        = .error { message := "boom", status := some 429 } ∧
      analyzeMealImage true (fun _ => .err { message := "boom", status := some 429 })
        (fun _ => .ok .null) "QUJD" "english" none []
        = .error { message := "OpenAI API rate limit exceeded. Please try again later." }) :=
  ⟨⟨by with_unfolding_all rfl,
    errorHandling_catch_policy.1 true (fun _ => .err { message := "x" })
      (fun _ => .ok .null) (.obj []) "hi" "english" { message := "x" }
      (by with_unfolding_all rfl)⟩,
   ⟨by with_unfolding_all rfl,
    (errorHandling_catch_policy.2.2 true (fun _ => .err { message := "boom", status := some 429 })
      (fun _ => .ok .null) "QUJD" "english" none [] { message := "boom", status := some 429 }
      (by with_unfolding_all rfl)).2.2.2.1 rfl⟩⟩

/-- C2 counterexample: with a configured provider, an empty image payload
does not yield an error to the caller — the validation throw is caught by
the top-level handler (it carries no provider status) and converted into the
fallback record, contradicting the claim that it is thrown and not
swallowed. -/
theorem analyze_swallows_empty_image :
    analyzeMealImage true (fun _ => .ok none) (fun _ => .ok .null) "" "english" none []
      = .ok (getFallbackAnalysis "english") := by
  with_unfolding_all rfl

/-- C2 (amended): on the configured initial-analysis path, an empty image
payload or a payload failing the base64 alphabet check raises a validation
error internally, but the top-level catch swallows it: since the error
carries no provider status, the caller receives `getFallbackAnalysis`
instead of an error. -/
theorem analyze_validation_error_to_fallback (provider : String → ProviderResult)
    (parseJson : String → Except JsError JsValue) (imageBase64 language : String)
    (updateText : Option String) (editedIngredients : List JsValue)
    (h : jsTrim imageBase64 = "" ∨ base64Test (cleanBase64Of imageBase64) = false) :
    analyzeMealImage true provider parseJson imageBase64 language updateText
      editedIngredients = .ok (getFallbackAnalysis language) := by
  unfold analyzeMealImage analyzeMealImageBody
  rcases Bool.eq_false_or_eq_true (imageBase64 == "" || jsTrim imageBase64 == "")
    with hc | hc
  · simp [hc, analyzeCatch]
  · have hb : base64Test (cleanBase64Of imageBase64) = false := by
      rcases h with h | h
      · exfalso
        simp [h] at hc
      · exact h
    simp [hc, hb, analyzeCatch]

/-- C2 witness: the swallowed-validation behaviour evaluated at a malformed
payload. -/
theorem analyze_validation_error_to_fallback_witness :
    (jsTrim "!!!" = "" ∨ base64Test (cleanBase64Of "!!!") = false) ∧
      analyzeMealImage true (fun _ => .ok none) (fun _ => .ok .null) "!!!" "english"
        none [] = .ok (getFallbackAnalysis "english") :=
  ⟨Or.inr (by decide),
    analyze_validation_error_to_fallback _ _ "!!!" "english" none [] (Or.inr (by decide))⟩
